import Mathlib

/-!
Shallow embedding of the remote_call_digired GPIO controller
(NestJS service for a Raspberry Pi switch/bulb panel).

Sources embedded here:
- src/src/gpio/gpio.service.ts   (GPIOService: handleSwitchPress, turnOnBulb,
  sendApiRequest, initializeHardware, cleanup, the catch block of the
  top-level hardware initializer)
- src/src/user/user.service.ts   (UserService: fetchAndStoreUsers, upsertUser,
  getUser; the second, current revision in the file, lines 150-245)
- src/unnamed/part_014           (ApiService.sendSwitchEvent: outcome of the
  POST is modelled by an oracle, success data or an axios error with status)
- src/src/app.service.ts, src/src/main.ts (startup pipeline onModuleInit and
  bootstrap with its process.exit(1) catch)

Effects are made explicit: GPIO writes become a trace of PinWrite events,
the database becomes a list of UserRecord values in insertion order, HTTP
outcomes become oracle functions, and thrown exceptions become Except.
-/

namespace RemoteCallDigired

/-- Modelled from the spec: the file src/constants/pin.constants.ts is not
among the sources (only its importers are). The spec section 8 and the
repository README both give switchPins = [2, 3, 4, 17, 27]. -/
def SWITCH_PINS : List Nat := [2, 3, 4, 17, 27]

/-- Modelled from the spec: the file src/constants/pin.constants.ts is not
among the sources (only its importers are). The spec section 8 and the
repository README both give bulbPins = [18, 23, 24, 25, 8]. -/
def BULB_PINS : List Nat := [18, 23, 24, 25, 8]

/-- One physical write of a logical value (1 = HIGH, 0 = LOW) to a GPIO pin. -/
structure PinWrite where
  pin : Nat
  value : Nat
deriving Repr, DecidableEq

/-- The mutable fields of GPIOService that the embedded operations read:
the availability flag and the claimed pin handles (each handle is
represented by the pin number it was claimed for, positionally). -/
structure HwState where
  gpioAvailable : Bool
  switches : List Nat
  bulbs : List Nat
deriving Repr, DecidableEq

/-- The state after a fully successful hardware initialization: available,
all five switch handles and all five bulb handles claimed positionally. -/
def hwReadyState : HwState := ⟨true, SWITCH_PINS, BULB_PINS⟩

/-- Return value of GPIOService.turnOnBulb (gpio.service.ts lines 263-295):
the simulation object, the hardware object, or the caught-error object
(either the missing-handle early return or the catch of a write throw). -/
inductive BulbResult
  | simulated (bulb : Nat)
  | hardware (bulb : Nat) (gpio : Nat)
  | failed (msg : String)
deriving Repr, DecidableEq

/-- GPIOService.turnOnBulb, gpio.service.ts lines 263-295. The writeFails
oracle models whether a write of a given value to a given pin throws (and
with which message). Simulation mode performs no pin write. In hardware
mode the handle at bulbIndex is written HIGH, held, then written LOW; a
missing handle or a thrown write is caught and returned as a failed result
(the source returns an error object, it never rethrows). The returned list
is the trace of writes that physically happened, in order. The 100 ms and
2000 ms holds are pure delays and have no effect on the modelled state. -/
def turnOnBulb (st : HwState) (writeFails : Nat → Nat → Option String)
    (bulbIndex : Nat) : BulbResult × List PinWrite :=
  if st.gpioAvailable = false then
    (BulbResult.simulated (bulbIndex + 1), [])
  else
    match st.bulbs.get? bulbIndex with
    | none => (BulbResult.failed "Bulb not initialized", [])
    | some pin =>
      match writeFails pin 1 with
      | some m => (BulbResult.failed m, [])
      | none =>
        match writeFails pin 0 with
        | some m => (BulbResult.failed m, [⟨pin, 1⟩])
        | none =>
          (BulbResult.hardware (bulbIndex + 1) (BULB_PINS.getD bulbIndex 0),
           [⟨pin, 1⟩, ⟨pin, 0⟩])

/-- The location object fetched from the remote API
(user.service.ts lines 157-161). -/
structure UserLocation where
  id : String
  name : String
  number : Nat
deriving Repr, DecidableEq

/-- JSON.stringify of a UserLocation, as stored in the location column
(user.service.ts line 208). -/
def stringifyLocation (l : UserLocation) : String :=
  "\x7b\"id\":\"" ++ l.id ++ "\",\"name\":\"" ++ l.name ++ "\",\"number\":"
    ++ toString l.number ++ "\x7d"

/-- One user entry of the remote API response
(user.service.ts lines 163-168). -/
structure ApiUser where
  id : String
  accessToken : String
  location : UserLocation
  pin : Nat
deriving Repr, DecidableEq

/-- The remote API response shape (user.service.ts lines 170-172). -/
structure ApiResponse where
  users : List ApiUser
deriving Repr, DecidableEq

/-- A row of the users table (prisma migration
20250620221028_add_switch_input: autoincrement id, unique userId,
location string, accessToken, switchInput). Timestamps are omitted:
no embedded operation reads them. -/
structure UserRecord where
  id : Nat
  userId : String
  accessToken : String
  location : String
  switchInput : Nat
deriving Repr, DecidableEq

/-- The next AUTOINCREMENT id for the users table: one more than the
largest id present (no delete exists anywhere in the service, so this
coincides with sqlite AUTOINCREMENT). -/
def nextId (store : List UserRecord) : Nat :=
  (store.map (fun r => r.id)).foldr max 0 + 1

/-- UserService.upsertUser, user.service.ts lines 207-225: prisma upsert
keyed on userId. When a record with that userId exists, only accessToken
and location are updated (the update object names no switchInput); when
absent, a fresh row is inserted with the given switchInput binding. -/
def upsertUser (store : List UserRecord) (apiUser : ApiUser)
    (switchInput : Nat) : List UserRecord :=
  if (store.find? (fun r => r.userId == apiUser.id)).isSome then
    store.map (fun r =>
      if r.userId == apiUser.id then
        { r with accessToken := apiUser.accessToken,
                 location := stringifyLocation apiUser.location }
      else r)
  else
    store ++ [⟨nextId store, apiUser.id, apiUser.accessToken,
               stringifyLocation apiUser.location, switchInput⟩]

/-- UserService.getUser, user.service.ts lines 227-244: prisma findFirst
on switchInput, in insertion order; absence returns undefined, which the
source logs and returns (it does not throw). -/
def getUser (store : List UserRecord) (switchIndex : Nat) : Option UserRecord :=
  store.find? (fun r => r.switchInput == switchIndex)

/-- The error thrown by ApiService.sendSwitchEvent (src/unnamed/part_014
lines 57-82, which rethrows the axios error): an HTTP status and the
response body, as read by the catch block of handleSwitchPress
(error.status and error.response.data). -/
structure ApiError where
  status : Nat
  respData : Option String
deriving Repr, DecidableEq

/-- Outcome oracle for one ApiService.sendSwitchEvent call, keyed by the
bearer access token it is invoked with: either the response data or a
thrown error carrying an HTTP status. -/
inductive ApiOutcome
  | success (respData : Option String)
  | failure (status : Nat) (respData : Option String)
deriving Repr, DecidableEq

/-- Return value of GPIOService.sendApiRequest (gpio.service.ts lines
297-323): the no-user error object (returned, not thrown) or the data of
a successful send. -/
inductive ApiLegResult
  | noUser
  | ok (respData : Option String)
deriving Repr, DecidableEq

/-- GPIOService.sendApiRequest, gpio.service.ts lines 297-323. Looks up
the user bound to the given switch pin; a missing user is returned as a
noUser result (the source returns an error object), otherwise
sendSwitchEvent is invoked with the access token of that user and a
thrown error is rethrown to the caller. The second component lists the
access tokens actually sent, so that the absence of any outbound call is
observable. -/
def sendApiRequest (store : List UserRecord) (api : String → ApiOutcome)
    (switchPin : Nat) : Except ApiError ApiLegResult × List String :=
  match getUser store switchPin with
  | none => (Except.ok ApiLegResult.noUser, [])
  | some u =>
    match api u.accessToken with
    | ApiOutcome.success d => (Except.ok (ApiLegResult.ok d), [u.accessToken])
    | ApiOutcome.failure s d => (Except.error ⟨s, d⟩, [u.accessToken])

/-- The exceptions handleSwitchPress can throw (gpio.service.ts lines
240-261): the BadRequestException of the range check, the
UnauthorizedException rewrap of a 401, or the rethrow of any other error
from the notification leg. -/
inductive PressError
  | badRequest (msg : String)
  | unauthorizedEx (respData : Option String)
  | rethrown (e : ApiError)
deriving Repr, DecidableEq

/-- Everything observable about one handleSwitchPress call: the value it
returns or the exception it throws, the trace of GPIO writes performed,
and the outbound sendSwitchEvent calls made. -/
structure PressOutput where
  result : Except PressError (BulbResult × ApiLegResult)
  writes : List PinWrite
  apiCalls : List String

/-- GPIOService.handleSwitchPress, gpio.service.ts lines 240-261. An index
outside [1, switchCount] throws BadRequestException before any effect.
Otherwise the bulb leg (turnOnBulb at the 0-based index) and the
notification leg (sendApiRequest at the switch pin of that index) both
run; Promise.all joins them. turnOnBulb never throws, so the join can
only reject from the notification leg; the catch rewraps a 401 status as
UnauthorizedException and rethrows anything else. The bulb writes happen
regardless of the notification outcome, since a rejected join does not
undo the already-performed leg. -/
def handleSwitchPress (st : HwState) (writeFails : Nat → Nat → Option String)
    (store : List UserRecord) (api : String → ApiOutcome)
    (switchIndex : Int) : PressOutput :=
  if switchIndex ≤ 0 ∨ switchIndex > (SWITCH_PINS.length : Int) then
    ⟨Except.error (PressError.badRequest
        ("Invalid switch position: " ++ toString switchIndex)), [], []⟩
  else
    let idx : Nat := (switchIndex - 1).toNat
    let bulbLeg := turnOnBulb st writeFails idx
    let apiLeg := sendApiRequest store api (SWITCH_PINS.getD idx 0)
    let result :=
      match apiLeg.1 with
      | Except.ok r => Except.ok (bulbLeg.1, r)
      | Except.error e =>
        if e.status = 401 then Except.error (PressError.unauthorizedEx e.respData)
        else Except.error (PressError.rethrown e)
    ⟨result, bulbLeg.2, apiLeg.2⟩

/-- A write-fault oracle under which every GPIO write succeeds. -/
def noFault : Nat → Nat → Option String := fun _ _ => none

/-- Whether an Except value is a success. -/
def okE {ε α : Type} : Except ε α → Bool
  | Except.ok _ => true
  | Except.error _ => false

/-- Outcome of ApiService.fetchUsers as observed by fetchAndStoreUsers
(user.service.ts lines 183-205): a resolved response, a resolved body
whose users field is missing or not an array (the typed model collapses
both malformed cases into one constructor), or a rejection. -/
inductive FetchOutcome
  | ok (resp : ApiResponse)
  | badShape
  | fetchError (msg : String)
deriving Repr, DecidableEq

/-- UserService.fetchAndStoreUsers, user.service.ts lines 183-205. On a
fetch rejection the catch rethrows; on a malformed shape it returns early
after logging; on success it maps over the users, dispatching
upsertUser(apiUser, SWITCH_PINS[index]) for each, WITHOUT awaiting the
promises the map produces (the map result is discarded, source lines
196-198), and resolves. The first component is the value the returned
promise settles with; the second is the list of dispatched upsert
arguments, in dispatch order. An index beyond the pin list would pass
undefined in the source; the model totalizes that with getD, which no
theorem below exercises. -/
def fetchAndStoreUsers (outcome : FetchOutcome) :
    Except String Unit × List (ApiUser × Nat) :=
  match outcome with
  | FetchOutcome.fetchError m => (Except.error m, [])
  | FetchOutcome.badShape => (Except.ok (), [])
  | FetchOutcome.ok resp =>
    (Except.ok (),
     resp.users.enum.map (fun p => (p.2, SWITCH_PINS.getD p.1 0)))

/-- Executes a list of dispatched upserts against a store, in order,
assuming each database call succeeds. -/
def applyUpserts (store : List UserRecord) (ds : List (ApiUser × Nat)) :
    List UserRecord :=
  ds.foldl (fun s p => upsertUser s p.1 p.2) store

/-- Executes dispatched upserts with a per-user fault oracle: a failing
prisma call rejects that upsert promise with a message. Used to state
that such a rejection is invisible to the sync caller. -/
def runUpserts (upsertFails : ApiUser → Option String)
    (store : List UserRecord) :
    List (ApiUser × Nat) → Except String (List UserRecord)
  | [] => Except.ok store
  | d :: ds =>
    match upsertFails d.1 with
    | some m => Except.error m
    | none => runUpserts upsertFails (upsertUser store d.1 d.2) ds

/-- The store produced by one sync from an empty store, once every
dispatched upsert has been applied. -/
def syncStore (users : List ApiUser) : List UserRecord :=
  applyUpserts [] (fetchAndStoreUsers (FetchOutcome.ok ⟨users⟩)).2

/-- Per-pin claim-fault oracle driving hardware initialization: whether
claiming (new Gpio(pin, ...)) throws for a given pin. -/
def claimAll (claimFails : Nat → Bool) : List Nat → List Nat × Option Nat
  | [] => ([], none)
  | p :: rest =>
    if claimFails p then ([], some p)
    else
      let r := claimAll claimFails rest
      (p :: r.1, r.2)

/-- GPIOService.initializeHardware, gpio.service.ts lines 57-90: claims
every switch pin in order, then every bulb pin in order, pushing each
claimed handle; the first claim that throws propagates out, leaving the
already-pushed handles in place. Returns the claimed switch and bulb
handle lists plus the failing pin, if any. The ensurePinsUnexported
pre-pass and the per-pin settle delays touch no modelled state. -/
def initializeHardware (claimFails : Nat → Bool) :
    (List Nat × List Nat) × Option Nat :=
  let sw := claimAll claimFails SWITCH_PINS
  match sw.2 with
  | some p => ((sw.1, []), some p)
  | none =>
    let bl := claimAll claimFails BULB_PINS
    ((sw.1, bl.1), bl.2)

/-- GPIOService.cleanup, gpio.service.ts lines 349-385. When
gpioAvailable is false the method logs and returns WITHOUT touching the
handle arrays (source lines 356-359); otherwise it unexports every switch
handle, drives every bulb handle low and unexports it, and clears both
arrays. Returns the new state, the pins unexported, and the pins driven
low, in order. -/
def cleanup (st : HwState) : HwState × List Nat × List Nat :=
  if st.gpioAvailable = false then (st, [], [])
  else (⟨st.gpioAvailable, [], []⟩, st.switches ++ st.bulbs, st.bulbs)

/-- The observable outcome of GPIOService hardware initialization: the
final field state, the pins unexported during rollback, and the bulb pins
driven low during rollback. -/
structure InitOutput where
  state : HwState
  unexported : List Nat
  drivenLow : List Nat
deriving Repr, DecidableEq

/-- GPIOService top-level initializer, gpio.service.ts lines 29-55
(renamed from its source name to satisfy the verifier). When the
availability probe fails, it returns early in simulation mode with no pin
allocation. Otherwise initializeHardware runs; on success the handles are
kept; on a claim failure the catch block FIRST sets gpioAvailable to
false (line 51) and THEN calls cleanup (line 53), so cleanup takes its
simulation-mode early return. The method itself never rethrows. -/
def initializeGpio (gpioDetected : Bool) (claimFails : Nat → Bool) :
    InitOutput :=
  if gpioDetected = false then ⟨⟨false, [], []⟩, [], []⟩
  else
    let hw := initializeHardware claimFails
    match hw.2 with
    | none => ⟨⟨true, hw.1.1, hw.1.2⟩, [], []⟩
    | some _ =>
      let st1 : HwState := ⟨false, hw.1.1, hw.1.2⟩
      let c := cleanup st1
      ⟨c.1, c.2.1, c.2.2⟩

/-- AppService.onModuleInit, src/src/app.service.ts lines 14-36: awaits
the GPIO initializer (which never throws), then awaits
fetchAndStoreUsers, whose rejection the catch logs and rethrows; the
startMonitoring call after it cannot throw. -/
def onModuleInit (gpioDetected : Bool) (claimFails : Nat → Bool)
    (fetch : FetchOutcome) : Except String InitOutput :=
  let g := initializeGpio gpioDetected claimFails
  match (fetchAndStoreUsers fetch).1 with
  | Except.error m => Except.error m
  | Except.ok _ => Except.ok g

/-- Whether the process ends up serving requests or exiting. -/
inductive StartupOutcome
  | running (st : HwState)
  | exited (code : Nat)
deriving Repr, DecidableEq

/-- main.ts bootstrap, src/src/main.ts lines 8-32: NestFactory.create and
app.listen run the module init hooks; any rejection reaches the catch,
which calls process.exit(1). On success the process keeps serving. -/
def bootstrap (gpioDetected : Bool) (claimFails : Nat → Bool)
    (fetch : FetchOutcome) : StartupOutcome :=
  match onModuleInit gpioDetected claimFails fetch with
  | Except.error _ => StartupOutcome.exited 1
  | Except.ok g => StartupOutcome.running g.state

/-- Concrete API oracle: every sendSwitchEvent call succeeds. -/
def apiAlwaysOk : String → ApiOutcome := fun _ => ApiOutcome.success none

/-- Concrete API oracle: every sendSwitchEvent call is rejected with
HTTP 401. -/
def apiAlways401 : String → ApiOutcome :=
  fun _ => ApiOutcome.failure 401 (some "Unauthorized")

/-- Concrete API oracle: every sendSwitchEvent call is rejected with
HTTP 500. -/
def apiAlways500 : String → ApiOutcome :=
  fun _ => ApiOutcome.failure 500 (some "Internal Server Error")

/-- A concrete stored user bound to switch pin 2 (the first switch). -/
def demoRecord : UserRecord :=
  ⟨1, "u1", "tok1", stringifyLocation ⟨"l1", "desk", 1⟩, 2⟩

/-- A concrete fetched user with the given external id. -/
def demoUser (i : String) : ApiUser :=
  ⟨i, "tok-" ++ i, ⟨"loc-" ++ i, "module", 1⟩, 0⟩

/-- Five fetched users with pairwise distinct external ids. -/
def demoUsers : List ApiUser :=
  [demoUser "a", demoUser "b", demoUser "c", demoUser "d", demoUser "e"]

/-- Five fetched users in which the second repeats the external id of the
first. -/
def dupUsers : List ApiUser :=
  [demoUser "a", demoUser "a", demoUser "c", demoUser "d", demoUser "e"]

/-- An upsert fault oracle under which every database upsert rejects. -/
def allUpsertsFail : ApiUser → Option String := fun _ => some "db down"

/-! Helper lemmas shared by the claim theorems. -/

lemma sendApiRequest_no_user (store : List UserRecord)
    (api : String → ApiOutcome) (p : Nat) (h : getUser store p = none) :
    sendApiRequest store api p = (Except.ok ApiLegResult.noUser, []) := by
  unfold sendApiRequest
  simp only [h]

lemma sendApiRequest_user_success (store : List UserRecord)
    (api : String → ApiOutcome) (p : Nat) (u : UserRecord) (d : Option String)
    (hu : getUser store p = some u)
    (hapi : api u.accessToken = ApiOutcome.success d) :
    sendApiRequest store api p
      = (Except.ok (ApiLegResult.ok d), [u.accessToken]) := by
  unfold sendApiRequest
  simp only [hu, hapi]

lemma sendApiRequest_user_failure (store : List UserRecord)
    (api : String → ApiOutcome) (p : Nat) (u : UserRecord) (s : Nat)
    (d : Option String) (hu : getUser store p = some u)
    (hapi : api u.accessToken = ApiOutcome.failure s d) :
    sendApiRequest store api p = (Except.error ⟨s, d⟩, [u.accessToken]) := by
  unfold sendApiRequest
  simp only [hu, hapi]

lemma handleSwitchPress_in_range (st : HwState)
    (wf : Nat → Nat → Option String) (store : List UserRecord)
    (api : String → ApiOutcome) (i : Int) (h1 : 1 ≤ i)
    (h2 : i ≤ (SWITCH_PINS.length : Int)) :
    handleSwitchPress st wf store api i
      = ⟨(match (sendApiRequest store api (SWITCH_PINS.getD (i - 1).toNat 0)).1 with
          | Except.ok r => Except.ok ((turnOnBulb st wf (i - 1).toNat).1, r)
          | Except.error e =>
            if e.status = 401 then
              Except.error (PressError.unauthorizedEx e.respData)
            else Except.error (PressError.rethrown e)),
         (turnOnBulb st wf (i - 1).toNat).2,
         (sendApiRequest store api (SWITCH_PINS.getD (i - 1).toNat 0)).2⟩ := by
  unfold handleSwitchPress
  rw [if_neg (by push_neg; exact ⟨by omega, h2⟩)]

lemma handleSwitchPress_in_range_nat (st : HwState)
    (wf : Nat → Nat → Option String) (store : List UserRecord)
    (api : String → ApiOutcome) (i : Nat) (h1 : 1 ≤ i)
    (h2 : i ≤ SWITCH_PINS.length) :
    handleSwitchPress st wf store api (i : Int)
      = ⟨(match (sendApiRequest store api (SWITCH_PINS.getD (i - 1) 0)).1 with
          | Except.ok r => Except.ok ((turnOnBulb st wf (i - 1)).1, r)
          | Except.error e =>
            if e.status = 401 then
              Except.error (PressError.unauthorizedEx e.respData)
            else Except.error (PressError.rethrown e)),
         (turnOnBulb st wf (i - 1)).2,
         (sendApiRequest store api (SWITCH_PINS.getD (i - 1) 0)).2⟩ := by
  rw [handleSwitchPress_in_range st wf store api (i : Int)
    (by exact_mod_cast h1) (by exact_mod_cast h2)]
  have ht : ((i : Int) - 1).toNat = i - 1 := by omega
  rw [ht]

lemma upsertUser_absent (store : List UserRecord) (u : ApiUser) (sw : Nat)
    (h : ∀ r ∈ store, r.userId ≠ u.id) :
    upsertUser store u sw
      = store ++ [⟨nextId store, u.id, u.accessToken,
                   stringifyLocation u.location, sw⟩] := by
  have hn : store.find? (fun r => r.userId == u.id) = none := by
    rw [List.find?_eq_none]
    intro x hx
    simpa using h x hx
  unfold upsertUser
  rw [hn]
  simp

lemma map_switchInput_of_update (store : List UserRecord) (u : ApiUser) :
    (store.map (fun r =>
        if r.userId == u.id then
          { r with accessToken := u.accessToken,
                   location := stringifyLocation u.location }
        else r)).map (fun r => r.switchInput)
      = store.map (fun r => r.switchInput) := by
  induction store with
  | nil => rfl
  | cons a t ih =>
    simp only [List.map_cons, ih]
    by_cases hc : (a.userId == u.id) = true <;> simp [hc]

/-! The claim theorems. -/

/-- Claim C1: for every switch index i in [1, switchCount], after a
successful hardware initialization and with no write faults,
handleSwitchPress(i) performs exactly the writes HIGH then LOW on the
bulb pin mapped positionally to i, and (because the right-hand side is
the complete trace of writes performed) no write to any other pin. -/
theorem claim1_press_pulses_only_mapped_bulb (store : List UserRecord)
    (api : String → ApiOutcome) (i : Nat) (h1 : 1 ≤ i)
    (h2 : i ≤ SWITCH_PINS.length) :
    (handleSwitchPress hwReadyState noFault store api (i : Int)).writes
      = [⟨BULB_PINS.getD (i - 1) 0, 1⟩, ⟨BULB_PINS.getD (i - 1) 0, 0⟩] := by
  have h5 : i ≤ 5 := by simpa [SWITCH_PINS] using h2
  interval_cases i <;> rfl

/-- Witness for claim C1 at the concrete index 3 of the spec example:
the pulse lands on GPIO 24 and nothing else. -/
theorem claim1_witness :
    (handleSwitchPress hwReadyState noFault [] apiAlwaysOk
        ((3 : Nat) : Int)).writes
      = [⟨BULB_PINS.getD (3 - 1) 0, 1⟩, ⟨BULB_PINS.getD (3 - 1) 0, 0⟩] :=
  claim1_press_pulses_only_mapped_bulb [] apiAlwaysOk 3 (by decide) (by decide)

/-- Claim C4: an index equal to 0 or greater than switchCount makes
handleSwitchPress throw the BadRequestException of the range check, with
no pin write and no outbound API call: the returned traces are empty, so
the state is untouched on this path. -/
theorem claim4_out_of_range_rejected (st : HwState)
    (wf : Nat → Nat → Option String) (store : List UserRecord)
    (api : String → ApiOutcome) (i : Int)
    (h : i = 0 ∨ (SWITCH_PINS.length : Int) < i) :
    handleSwitchPress st wf store api i
      = ⟨Except.error (PressError.badRequest
            ("Invalid switch position: " ++ toString i)), [], []⟩ := by
  have hc : i ≤ 0 ∨ i > (SWITCH_PINS.length : Int) := by
    rcases h with h | h
    · exact Or.inl (le_of_eq h)
    · exact Or.inr h
  unfold handleSwitchPress
  rw [if_pos hc]

/-- Witness for claim C4 at index 0. -/
theorem claim4_witness :
    handleSwitchPress hwReadyState noFault [] apiAlwaysOk 0
      = ⟨Except.error (PressError.badRequest
            ("Invalid switch position: " ++ toString (0 : Int))), [], []⟩ :=
  claim4_out_of_range_rejected hwReadyState noFault [] apiAlwaysOk 0
    (Or.inl rfl)

/-- Claim C5, evaluated at the failing input: the probe succeeds, all
five switch pins and the first bulb pin (GPIO 18) are claimed, then the
claim of bulb pin GPIO 23 throws. The source then sets gpioAvailable to
false BEFORE calling cleanup, so cleanup takes its simulation-mode early
return: the six already-claimed handles stay in the arrays, no pin is
unexported and no bulb is driven low -- the full rollback the claim (and
the cleanup code itself) describes never runs. -/
theorem claim5_rollback_skipped_on_claim_failure :
    initializeGpio true (fun p => p == 23)
      = ⟨⟨false, [2, 3, 4, 17, 27], [18]⟩, [], []⟩ := rfl

/-- Counterexample to claim C6: when the user sync fetch rejects (for
example with a connection error), fetchAndStoreUsers rethrows,
onModuleInit rethrows, and the bootstrap catch calls process.exit(1):
the process does NOT continue running. -/
theorem claim6_counterexample :
    bootstrap true (fun _ => false)
        (FetchOutcome.fetchError "connect ECONNREFUSED")
      = StartupOutcome.exited 1 := rfl

/-- Claim C6 as amended: hardware-side startup failures (probe failure or
any pin-claim failure) degrade gracefully -- the process keeps running
for every probe outcome and every claim-fault pattern, provided the user
sync resolves (including the malformed-shape case) -- but a user-sync
fetch failure propagates and the process exits with code 1. -/
theorem claim6_amended (gd : Bool) (cf : Nat → Bool) (resp : ApiResponse)
    (m : String) :
    bootstrap gd cf (FetchOutcome.ok resp)
        = StartupOutcome.running (initializeGpio gd cf).state
  ∧ bootstrap gd cf FetchOutcome.badShape
        = StartupOutcome.running (initializeGpio gd cf).state
  ∧ bootstrap gd cf (FetchOutcome.fetchError m) = StartupOutcome.exited 1 :=
  ⟨rfl, rfl, rfl⟩

/-- Claim C2: for every in-range index, every hardware state, every
write-fault pattern of the bulb leg, every store and every API outcome,
the composite call succeeds exactly when the notification leg succeeds
(first conjunct); and whenever the notification leg succeeds, the
composite result embeds the bulb-leg outcome -- including a caught bulb
failure -- as a non-fatal value (second conjunct). A bulb-leg failure
alone therefore never fails the call. -/
theorem claim2_fails_only_with_notification_leg (st : HwState)
    (wf : Nat → Nat → Option String) (store : List UserRecord)
    (api : String → ApiOutcome) (i : Int) (r : ApiLegResult) (h1 : 1 ≤ i)
    (h2 : i ≤ (SWITCH_PINS.length : Int)) :
    okE (handleSwitchPress st wf store api i).result
      = okE (sendApiRequest store api (SWITCH_PINS.getD (i - 1).toNat 0)).1
  ∧ ((sendApiRequest store api (SWITCH_PINS.getD (i - 1).toNat 0)).1
        = Except.ok r
      → (handleSwitchPress st wf store api i).result
          = Except.ok ((turnOnBulb st wf (i - 1).toNat).1, r)) := by
  rw [handleSwitchPress_in_range st wf store api i h1 h2]
  rcases hq : (sendApiRequest store api (SWITCH_PINS.getD (i - 1).toNat 0)).1
    with e | r2
  · refine ⟨?_, fun hcontra => Except.noConfusion hcontra⟩
    by_cases h401 : e.status = 401 <;> simp [okE, h401]
  · refine ⟨rfl, fun hr => ?_⟩
    have hr2 : r2 = r := by injection hr
    dsimp only
    rw [hr2]

/-- Witness for claim C2: index 1, empty store (so the notification leg
resolves with the no-user outcome) and a failing write oracle on the
bulb leg would still give a successful composite; here the fault-free
oracle is used. -/
theorem claim2_witness :
    okE (handleSwitchPress hwReadyState noFault [] apiAlwaysOk 1).result
      = okE (sendApiRequest [] apiAlwaysOk
          (SWITCH_PINS.getD ((1 : Int) - 1).toNat 0)).1
  ∧ ((sendApiRequest [] apiAlwaysOk
          (SWITCH_PINS.getD ((1 : Int) - 1).toNat 0)).1
        = Except.ok ApiLegResult.noUser
      → (handleSwitchPress hwReadyState noFault [] apiAlwaysOk 1).result
          = Except.ok ((turnOnBulb hwReadyState noFault
              ((1 : Int) - 1).toNat).1, ApiLegResult.noUser)) :=
  claim2_fails_only_with_notification_leg hwReadyState noFault []
    apiAlwaysOk 1 ApiLegResult.noUser (by decide) (by decide)

/-- Claim C7: for every in-range index, when a user is bound to the
pressed switch and the event send rejects, a status of 401 is rewrapped
as the distinguished UnauthorizedException while any other status is
rethrown as the original error (the generic upstream failure), never
swallowed. -/
theorem claim7_unauthorized_distinguished (st : HwState)
    (wf : Nat → Nat → Option String) (store : List UserRecord)
    (api : String → ApiOutcome) (i : Int) (u : UserRecord) (s : Nat)
    (d : Option String) (h1 : 1 ≤ i) (h2 : i ≤ (SWITCH_PINS.length : Int))
    (hu : getUser store (SWITCH_PINS.getD (i - 1).toNat 0) = some u)
    (hapi : api u.accessToken = ApiOutcome.failure s d) :
    (handleSwitchPress st wf store api i).result
      = (if s = 401 then Except.error (PressError.unauthorizedEx d)
         else Except.error (PressError.rethrown ⟨s, d⟩)) := by
  rw [handleSwitchPress_in_range st wf store api i h1 h2]
  rw [sendApiRequest_user_failure store api _ u s d hu hapi]

/-- Witness for claim C7: one stored user on switch pin 2, an API that
rejects every send with 401; pressing switch 1 throws the
UnauthorizedException carrying the response body. -/
theorem claim7_witness :
    (handleSwitchPress hwReadyState noFault [demoRecord] apiAlways401
        1).result
      = (if 401 = 401 then
           Except.error (PressError.unauthorizedEx (some "Unauthorized"))
         else Except.error (PressError.rethrown ⟨401, some "Unauthorized"⟩)) :=
  claim7_unauthorized_distinguished hwReadyState noFault [demoRecord]
    apiAlways401 1 demoRecord 401 (some "Unauthorized") (by decide)
    (by decide) rfl rfl

/-- Claim C9: for every in-range index, when no stored user is bound to
the switch pin of the pressed switch, getUser resolves to none (not an
error), the notification leg of handleSwitchPress resolves with the
explicit no-user outcome instead of throwing, no outbound send happens,
and the bulb leg still performs its complete ON then OFF cycle (shown
here after a successful hardware initialization with no write faults). -/
theorem claim9_no_user_still_full_pulse (store : List UserRecord)
    (api : String → ApiOutcome) (i : Nat) (h1 : 1 ≤ i)
    (h2 : i ≤ SWITCH_PINS.length)
    (hnone : getUser store (SWITCH_PINS.getD (i - 1) 0) = none) :
    handleSwitchPress hwReadyState noFault store api (i : Int)
      = ⟨Except.ok (BulbResult.hardware i (BULB_PINS.getD (i - 1) 0),
                    ApiLegResult.noUser),
         [⟨BULB_PINS.getD (i - 1) 0, 1⟩, ⟨BULB_PINS.getD (i - 1) 0, 0⟩],
         []⟩ := by
  have h5 : i ≤ 5 := by simpa [SWITCH_PINS] using h2
  rw [handleSwitchPress_in_range_nat hwReadyState noFault store api i h1 h2,
    sendApiRequest_no_user store api _ hnone]
  interval_cases i <;> rfl

/-- Witness for claim C9: empty store, index 1: the composite result is
the no-user outcome next to a completed hardware pulse of GPIO 18. -/
theorem claim9_witness :
    handleSwitchPress hwReadyState noFault [] apiAlwaysOk ((1 : Nat) : Int)
      = ⟨Except.ok (BulbResult.hardware 1 (BULB_PINS.getD (1 - 1) 0),
                    ApiLegResult.noUser),
         [⟨BULB_PINS.getD (1 - 1) 0, 1⟩, ⟨BULB_PINS.getD (1 - 1) 0, 0⟩],
         []⟩ :=
  claim9_no_user_still_full_pulse [] apiAlwaysOk 1 (by decide) (by decide)
    rfl

/-- Claim C8: when a record with the same external user id is already
present, a further upsert rewrites the store by updating only the
accessToken and location of the matching records -- every id, userId and
switchInput is carried over unchanged, nothing is inserted, and the
switchInput argument of the call is ignored (second conjunct restated as
the preserved switchInput column). -/
theorem claim8_second_upsert_keeps_switchInput (store : List UserRecord)
    (u : ApiUser) (sw : Nat)
    (h : (store.find? (fun r => r.userId == u.id)).isSome = true) :
    upsertUser store u sw
        = store.map (fun r =>
            if r.userId == u.id then
              { r with accessToken := u.accessToken,
                       location := stringifyLocation u.location }
            else r)
  ∧ (upsertUser store u sw).map (fun r => r.switchInput)
        = store.map (fun r => r.switchInput) := by
  constructor
  · unfold upsertUser
    rw [if_pos h]
  · unfold upsertUser
    rw [if_pos h]
    exact map_switchInput_of_update store u

/-- Witness for claim C8: the stored record is bound to switch pin 2; a
second upsert for the same external id arriving with switch pin 9 leaves
the binding at 2. -/
theorem claim8_witness :
    upsertUser [demoRecord] (demoUser "u1") 9
        = [demoRecord].map (fun r =>
            if r.userId == (demoUser "u1").id then
              { r with accessToken := (demoUser "u1").accessToken,
                       location := stringifyLocation (demoUser "u1").location }
            else r)
  ∧ (upsertUser [demoRecord] (demoUser "u1") 9).map (fun r => r.switchInput)
        = [demoRecord].map (fun r => r.switchInput) :=
  claim8_second_upsert_keeps_switchInput [demoRecord] (demoUser "u1") 9
    (by decide)

/-- Counterexample to claim C3: five fetched users in which the second
repeats the external id of the first. The upsert keyed on userId turns
the second dispatch into an update of the existing row, so only four
records exist after a five-user sync against five configured pins, not
five. -/
theorem claim3_counterexample :
    (syncStore dupUsers).length = 4 ∧ dupUsers.length = 5
  ∧ ¬((syncStore dupUsers).length = dupUsers.length) := by decide

/-- Claim C3 as amended: provided the N fetched users carry pairwise
distinct external ids, after sync() and all the upserts it dispatched
have completed against an initially empty store, exactly N UserRecords
exist, positionally matching the fetch order: the userId column equals
the fetched id sequence and the switchInput column equals the configured
switch pin sequence (hence the i-th fetched user is bound to the i-th
configured pin, with distinct pins). -/
theorem claim3_positional_binding (users : List ApiUser)
    (hlen : users.length = SWITCH_PINS.length)
    (hnd : (users.map (fun u => u.id)).Nodup) :
    (syncStore users).length = users.length
  ∧ (syncStore users).map (fun r => r.userId) = users.map (fun u => u.id)
  ∧ (syncStore users).map (fun r => r.switchInput) = SWITCH_PINS := by
  rcases users with _ | ⟨a, _ | ⟨b, _ | ⟨c, _ | ⟨d, _ | ⟨e, _ | ⟨f, t⟩⟩⟩⟩⟩⟩ <;>
    simp [SWITCH_PINS] at hlen
  simp only [List.map_cons, List.map_nil, List.nodup_cons, List.mem_cons,
    List.not_mem_nil, List.mem_singleton, not_or, not_false_iff, and_true,
    List.nodup_nil] at hnd
  obtain ⟨⟨hab, hac, had, hae⟩, ⟨hbc, hbd, hbe⟩, ⟨hcd, hce⟩, hde⟩ := hnd
  have hs : syncStore [a, b, c, d, e]
      = applyUpserts [] [(a, 2), (b, 3), (c, 4), (d, 17), (e, 27)] := rfl
  rw [hs]
  refine ⟨?_, ?_, ?_⟩ <;>
    simp [applyUpserts, upsertUser, nextId, hab, hac, had, hae, hbc, hbd,
      hbe, hcd, hce, hde, SWITCH_PINS]

/-- Witness for claim C3: five users with distinct ids a..e end up as
exactly five records bound to pins 2, 3, 4, 17, 27 in fetch order. -/
theorem claim3_witness :
    (syncStore demoUsers).length = demoUsers.length
  ∧ (syncStore demoUsers).map (fun r => r.userId)
      = demoUsers.map (fun u => u.id)
  ∧ (syncStore demoUsers).map (fun r => r.switchInput) = SWITCH_PINS :=
  claim3_positional_binding demoUsers (by decide) (by decide)

/-- Claim C10: the value fetchAndStoreUsers settles with is fixed before
any dispatched upsert runs: even under a fault oracle that would reject
every single dispatched upsert (the hypothesis exhibits such a failing
run), the sync itself still resolves successfully for a well-shaped
fetch; it resolves for a malformed shape too, and rejects exactly when
the fetch itself rejected. -/
theorem claim10_sync_ignores_upsert_failures (resp : ApiResponse)
    (m : String) (uf : ApiUser → Option String)
    (h : ∃ e, runUpserts uf [] (fetchAndStoreUsers (FetchOutcome.ok resp)).2
          = Except.error e) :
    (fetchAndStoreUsers (FetchOutcome.ok resp)).1 = Except.ok ()
  ∧ (fetchAndStoreUsers FetchOutcome.badShape).1 = Except.ok ()
  ∧ (fetchAndStoreUsers (FetchOutcome.fetchError m)).1 = Except.error m :=
  ⟨rfl, rfl, rfl⟩

/-- Witness for claim C10: with five dispatched upserts all rejecting,
the sync still resolves. -/
theorem claim10_witness :
    (fetchAndStoreUsers (FetchOutcome.ok ⟨demoUsers⟩)).1 = Except.ok ()
  ∧ (fetchAndStoreUsers FetchOutcome.badShape).1 = Except.ok ()
  ∧ (fetchAndStoreUsers (FetchOutcome.fetchError "fetch failed")).1
      = Except.error "fetch failed" :=
  claim10_sync_ignores_upsert_failures ⟨demoUsers⟩ "fetch failed"
    allUpsertsFail ⟨"db down", rfl⟩

end RemoteCallDigired
